import Mathlib

/-!
Shallow embedding of `src/main.rs` (an RTIC application coordinating a shared
8-byte DMA buffer between a TWIS responder interface and a TWIM controller
interface on one nRF52840 MCU).

The shared slot `transfer : Option TwisTransfer` and the three handlers
(`on_twis`, `on_gpiote`, `send_twi_cmds`) are translated directly from the
source.  Both interrupt handlers run at RTIC priority 2 with a `lock_free`
shared resource, so neither can preempt the other; handler executions are
therefore atomic with respect to each other, and an interleaving of hardware
events is a finite sequence of atomic handler invocations (`step`/`run`).

The external HAL operations (`Twis.tx`, `Twis.rx`, `Transfer.wait`, the RTIC
`spawn` queue) are out-of-scope collaborators of the repository; they are
modelled from the interface the spec describes for them, as noted on each.
-/

/-- A byte; values produced by the program stay below 256 by construction. -/
abbrev Byte := Nat

/-- `type DmaBuffer = &'static mut [u8; 8]` — the pointed-to 8-byte region. -/
abbrev DmaBuffer := List Byte

/-- The three TWIS hardware event flags (`TwiEvent` in the HAL). -/
inductive TwiEvent
  | Read
  | Write
  | Stopped
deriving DecidableEq, Repr

/-- The responder-mode interface `Twis<TWIS0>`: its configured bus address,
its three latched event flags, and whether a DMA transaction is in flight
(`busy`; a DMA-start call on a busy interface is rejected by the HAL). -/
structure Twis where
  addr : Byte
  readEvt : Bool
  writeEvt : Bool
  stoppedEvt : Bool
  busy : Bool
deriving DecidableEq, Repr

/-- Direction of an in-flight DMA transaction. -/
inductive TransferDir
  | txDir
  | rxDir
deriving DecidableEq, Repr

/-- `Transfer<TWIS0, DmaBuffer>`: an in-flight DMA transaction holding the
buffer and the device until awaited. -/
structure Transfer where
  dir : TransferDir
  buf : DmaBuffer
  twis : Twis
deriving DecidableEq, Repr

/-- `enum TwisTransfer { Running(Transfer<TWIS0, DmaBuffer>), Idle((DmaBuffer, Twis<TWIS0>)) }`. -/
inductive TwisTransfer
  | Running (t : Transfer)
  | Idle (p : DmaBuffer × Twis)
deriving DecidableEq, Repr

/-- Modelled from the spec: the HAL's `Twis::tx` (missing from `src/`, it
lives in the external `nrf52840-hal` crate).  Starting a transmit DMA with
`buffer` as source is rejected when the interface is already busy; otherwise
it returns the pending transfer that now owns the pair. -/
def Twis.tx (tw : Twis) (buf : DmaBuffer) : Except Unit Transfer :=
  if tw.busy then .error ()
  else .ok { dir := .txDir, buf := buf, twis := { tw with busy := true } }

/-- Modelled from the spec: the HAL's `Twis::rx` — start a receive DMA with
`buffer` as destination; rejected when the interface is already busy. -/
def Twis.rx (tw : Twis) (buf : DmaBuffer) : Except Unit Transfer :=
  if tw.busy then .error ()
  else .ok { dir := .rxDir, buf := buf, twis := { tw with busy := true } }

/-- Modelled from the spec: the HAL's `Transfer::wait`, which resolves a
pending transfer and yields back the exact `(Buffer, ResponderDevice)` pair
that started it, the interface no longer busy. -/
def Transfer.wait (t : Transfer) : DmaBuffer × Twis :=
  (t.buf, { t.twis with busy := false })

/-- The shared `match transfer.take().unwrap() { Running(t) => t.wait(), Idle(t) => t }`
pattern of both interrupt handlers, applied to the value taken from the slot. -/
def TwisTransfer.resolve : TwisTransfer → DmaBuffer × Twis
  | .Running t => t.wait
  | .Idle p => p

/-- Modelled from the spec: hardware setting one of the three event flags on
the responder device, wherever the device currently lives. -/
def Twis.setEvent (e : TwiEvent) (tw : Twis) : Twis :=
  match e with
  | .Read => { tw with readEvt := true }
  | .Write => { tw with writeEvt := true }
  | .Stopped => { tw with stoppedEvt := true }

/-- Observable actions, in program order, for the diagnostic/ordering claims:
latch clear, trace prints, slot take/install, buffer zeroing, task spawn,
controller-mode completions, and the fatal sink. -/
inductive Act
  | clearLatch
  | traceReset
  | takeSlot
  | zeroBuf
  | traceBuf (b : DmaBuffer)
  | installSlot
  | spawnTask
  | traceRead
  | traceWrite
  | twimReadDone (ok : Bool)
  | twimWriteDone (ok : Bool)
  | fatal
deriving DecidableEq, Repr

/-- One controller-mode bus operation issued by the TWIM interface. -/
inductive TwimOp
  | read (addr : Byte) (len : Nat)
  | write (addr : Byte) (data : List Byte)
deriving DecidableEq, Repr

/-- The controller-mode interface `Twim<TWIM1>` with the outcomes its next
read/write will report (oracle for the bus environment; the data a successful
read returns is whatever the responder transmitted). -/
structure Twim where
  readOk : Bool
  readData : DmaBuffer
  writeOk : Bool
deriving DecidableEq, Repr

/-- Whole-system state: the `#[shared] transfer` slot, the RTIC software-task
queue flag for `send_twi_cmds` (capacity 1), the GPIOTE edge latch, the TWIM
oracle, the trace of controller-mode operations issued, the action log, and
whether the fault sink has halted the system with interrupts disabled. -/
structure Sys where
  transfer : Option TwisTransfer
  pendingSpawn : Bool
  gpioteLatch : Bool
  twim : Twim
  twimOps : List TwimOp
  log : List Act
  halted : Bool
  intEnabled : Bool
deriving DecidableEq, Repr

/-- The `#[panic_handler] fn panic` at the bottom of `src/main.rs`: disable
interrupts, emit a diagnostic, and loop forever (the loop is the `halted`
flag; `step` makes a halted system absorb every event). -/
def panicHalt (s : Sys) : Sys :=
  { s with halted := true, intEnabled := false, log := s.log ++ [Act.fatal] }

/-- `fn on_twis` (priority 2, bound to the TWIS interrupt): take the slot
(`unwrap` is fatal when empty), await a running transfer or unwrap an idle
pair, then branch on the event flags — Read first, then Write, else the
Stopped fallback — clearing the examined flag and reinstalling exactly one
variant; a rejected DMA start (`tx`/`rx` `unwrap`) is fatal. -/
def on_twis (s : Sys) : Sys :=
  match s.transfer with
  | none => panicHalt { s with transfer := none, log := s.log ++ [Act.takeSlot] }
  | some st =>
    match st.resolve with
    | (buf, twis) =>
      if twis.readEvt then
        match Twis.tx { twis with readEvt := false } buf with
        | .error _ =>
            panicHalt { s with transfer := none,
                               log := s.log ++ [Act.takeSlot, Act.traceRead] }
        | .ok t =>
            { s with transfer := some (.Running t),
                     log := s.log ++ [Act.takeSlot, Act.traceRead] }
      else if twis.writeEvt then
        match Twis.rx { twis with writeEvt := false } buf with
        | .error _ =>
            panicHalt { s with transfer := none,
                               log := s.log ++ [Act.takeSlot, Act.traceWrite] }
        | .ok t =>
            { s with transfer := some (.Running t),
                     log := s.log ++ [Act.takeSlot, Act.traceWrite] }
      else
        { s with transfer := some (.Idle (buf, { twis with stoppedEvt := false })),
                 log := s.log ++ [Act.takeSlot, Act.traceBuf buf] }

/-- `fn on_gpiote` (priority 2, bound to the GPIOTE interrupt): clear the
edge latch first, take the slot (fatal when empty), resolve to the
`(buffer, device)` pair, zero the buffer, reinstall `Idle`, and finally
spawn `send_twi_cmds` — the spawn queue has capacity 1, so a second enqueue
while one is pending returns an error, whose `unwrap` is fatal (queue
semantics modelled from the spec: RTIC's spawn is not in `src/`). -/
def on_gpiote (s : Sys) : Sys :=
  match s.transfer with
  | none =>
      panicHalt { s with gpioteLatch := false,
                         log := s.log ++ [Act.clearLatch, Act.traceReset, Act.takeSlot] }
  | some st =>
    match st.resolve with
    | (_, twis) =>
      let s1 : Sys :=
        { s with gpioteLatch := false,
                 transfer := some (.Idle (List.replicate 8 0, twis)),
                 log := s.log ++ [Act.clearLatch, Act.traceReset, Act.takeSlot,
                                  Act.zeroBuf, Act.traceBuf (List.replicate 8 0),
                                  Act.installSlot] }
      if s.pendingSpawn then panicHalt s1
      else { s1 with pendingSpawn := true, log := s1.log ++ [Act.spawnTask] }

/-- The local scratch `let rx_buf = &mut [0; 8][..]` of `send_twi_cmds`. -/
def twimRxScratch : DmaBuffer := List.replicate 8 0

/-- The fixed payload `let tx_buf = [1, 2, 3, 4, 5, 6, 7, 8]` of `send_twi_cmds`. -/
def twimTxPayload : List Byte := [1, 2, 3, 4, 5, 6, 7, 8]

/-- The responder bus address, the literal `0x1A` of the source. -/
def TWIS_ADDR : Byte := 0x1A

/-- `fn send_twi_cmds` (software task, priority 1, local `twim` only): a
blocking read of 8 bytes from address `0x1A` into the scratch buffer, its
result printed; then — unconditionally, whatever the read reported — a
blocking write of the fixed payload to `0x1A`, its result printed.  It never
touches the shared `transfer` slot (the task declares no shared resource). -/
def send_twi_cmds (s : Sys) : Sys :=
  { s with
      twimOps := s.twimOps ++ [TwimOp.read TWIS_ADDR twimRxScratch.length,
                               TwimOp.write TWIS_ADDR twimTxPayload],
      log := s.log ++ [Act.twimReadDone s.twim.readOk,
                       Act.twimWriteDone s.twim.writeOk] }

/-- Hardware events driving the system: the three bus events (which latch a
flag on the responder device and fire the TWIS interrupt), autonomous DMA
progress filling an in-flight receive buffer with bus data, the falling-edge
reset signal, and the scheduler dispatching a pending software task. -/
inductive Ev
  | busRead
  | busWrite
  | busStop
  | hwDma (data : DmaBuffer)
  | resetEdge
  | dispatch

/-- Hardware latches event flag `e` on the responder device, wherever the
device currently lives (idle pair or in-flight transfer). -/
def Sys.setEvt (s : Sys) (e : TwiEvent) : Sys :=
  match s.transfer with
  | none => s
  | some (.Idle (b, tw)) => { s with transfer := some (.Idle (b, tw.setEvent e)) }
  | some (.Running t) =>
      { s with transfer := some (.Running { t with twis := t.twis.setEvent e }) }

/-- Autonomous DMA progress: bus data lands in the buffer of an in-flight
receive transfer (a partial transaction fills a prefix); transmit transfers
and idle states are untouched. -/
def Sys.dmaFill (s : Sys) (data : DmaBuffer) : Sys :=
  match s.transfer with
  | some (.Running t) =>
      if t.dir = .rxDir then
        { s with transfer := some (.Running
            { t with buf := data.take t.buf.length ++ t.buf.drop data.length }) }
      else s
  | _ => s

/-- One atomic system step: a halted system (fault sink reached, interrupts
disabled, infinite loop) absorbs every event; otherwise each bus event runs
`on_twis`, the reset edge runs `on_gpiote`, DMA progress is hardware-only,
and `dispatch` runs a pending `send_twi_cmds` to completion. -/
def step (s : Sys) (e : Ev) : Sys :=
  if s.halted then s
  else
    match e with
    | .busRead => on_twis (s.setEvt .Read)
    | .busWrite => on_twis (s.setEvt .Write)
    | .busStop => on_twis (s.setEvt .Stopped)
    | .hwDma data => s.dmaFill data
    | .resetEdge => on_gpiote { s with gpioteLatch := true }
    | .dispatch =>
        if s.pendingSpawn then send_twi_cmds { s with pendingSpawn := false }
        else s

/-- Run a finite interleaving of events from a state. -/
def run (s : Sys) (evs : List Ev) : Sys := evs.foldl step s

/-- The responder device as configured by `init`:
`Twis::new(TWIS0, pins, 0x1A)`, no event latched, no DMA in flight. -/
def initTwis : Twis :=
  { addr := TWIS_ADDR, readEvt := false, writeEvt := false,
    stoppedEvt := false, busy := false }

/-- The static buffer `BUF: [u8; 8] = [0; 8]` of `init`. -/
def initBuf : DmaBuffer := List.replicate 8 0

/-- The system state `init` returns: the slot holds `Idle((BUF, twis))`,
nothing pending, nothing halted. -/
def initSys : Sys :=
  { transfer := some (.Idle (initBuf, initTwis)),
    pendingSpawn := false, gpioteLatch := false,
    twim := { readOk := true, readData := List.replicate 8 0, writeOk := true },
    twimOps := [], log := [], halted := false, intEnabled := true }

/-- Number of owners the shared buffer is reachable from through the slot:
the slot is an `Option`, so it holds zero or one `TwisTransfer`. -/
def ownerCount (s : Sys) : Nat :=
  match s.transfer with
  | none => 0
  | some _ => 1

/-- Slot well-formedness preserved by every step: the slot is nonempty, and
the device it resolves to has no DMA in flight (a running transfer's `wait`
clears `busy`, so only the idle pair's flag matters). -/
def goodSlot : Option TwisTransfer → Bool
  | none => false
  | some (.Running _) => true
  | some (.Idle (_, tw)) => !tw.busy

/-- Resolving a well-formed slot value yields a device with no DMA in flight. -/
theorem resolve_not_busy (st : TwisTransfer) (h : goodSlot (some st) = true) :
    (st.resolve).2.busy = false := by
  match st with
  | .Running t => simp [TwisTransfer.resolve, Transfer.wait]
  | .Idle (b, tw) => simpa [goodSlot, TwisTransfer.resolve] using h

/-- `on_twis` preserves slot well-formedness. -/
theorem goodSlot_on_twis (s : Sys) (h : goodSlot s.transfer = true) :
    goodSlot (on_twis s).transfer = true := by
  match hs : s.transfer with
  | none => rw [hs] at h; simp [goodSlot] at h
  | some st =>
      rw [hs] at h
      have hb : (st.resolve).2.busy = false := resolve_not_busy st h
      by_cases hr : (st.resolve).2.readEvt <;> by_cases hw : (st.resolve).2.writeEvt <;>
        simp [on_twis, hs, Twis.tx, Twis.rx, goodSlot, hr, hw, hb]

/-- `on_gpiote` preserves slot well-formedness. -/
theorem goodSlot_on_gpiote (s : Sys) (h : goodSlot s.transfer = true) :
    goodSlot (on_gpiote s).transfer = true := by
  match hs : s.transfer with
  | none => rw [hs] at h; simp [goodSlot] at h
  | some st =>
      rw [hs] at h
      have hb : (st.resolve).2.busy = false := resolve_not_busy st h
      by_cases hp : s.pendingSpawn <;>
        simp [on_gpiote, hs, panicHalt, goodSlot, hp, hb]

/-- Latching an event flag does not affect slot well-formedness. -/
theorem goodSlot_setEvt (s : Sys) (e : TwiEvent) (h : goodSlot s.transfer = true) :
    goodSlot (s.setEvt e).transfer = true := by
  match hs : s.transfer with
  | none => rw [hs] at h; simp [goodSlot] at h
  | some (.Running t) => simp [Sys.setEvt, hs, goodSlot]
  | some (.Idle (b, tw)) =>
      rw [hs] at h
      simp [goodSlot] at h
      match e with
      | .Read => simp [Sys.setEvt, hs, goodSlot, Twis.setEvent, h]
      | .Write => simp [Sys.setEvt, hs, goodSlot, Twis.setEvent, h]
      | .Stopped => simp [Sys.setEvt, hs, goodSlot, Twis.setEvent, h]

/-- Autonomous DMA progress does not affect slot well-formedness. -/
theorem goodSlot_dmaFill (s : Sys) (d : DmaBuffer) (h : goodSlot s.transfer = true) :
    goodSlot (s.dmaFill d).transfer = true := by
  match hs : s.transfer with
  | none => rw [hs] at h; simp [goodSlot] at h
  | some (.Running t) =>
      by_cases hd : t.dir = .rxDir <;> simp [Sys.dmaFill, hs, goodSlot, hd]
  | some (.Idle p) => simp [Sys.dmaFill, hs, goodSlot]; rw [hs] at h; simpa [goodSlot] using h

/-- The controller task never touches the slot. -/
theorem send_twi_cmds_transfer (s : Sys) : (send_twi_cmds s).transfer = s.transfer := rfl

/-- Every atomic system step preserves slot well-formedness. -/
theorem goodSlot_step (s : Sys) (e : Ev) (h : goodSlot s.transfer = true) :
    goodSlot (step s e).transfer = true := by
  by_cases hh : s.halted
  · simpa [step, hh] using h
  · match e with
    | .busRead => simpa [step, hh] using goodSlot_on_twis _ (goodSlot_setEvt s .Read h)
    | .busWrite => simpa [step, hh] using goodSlot_on_twis _ (goodSlot_setEvt s .Write h)
    | .busStop => simpa [step, hh] using goodSlot_on_twis _ (goodSlot_setEvt s .Stopped h)
    | .hwDma d => simpa [step, hh] using goodSlot_dmaFill s d h
    | .resetEdge =>
        have : goodSlot (Sys.transfer { s with gpioteLatch := true }) = true := h
        simpa [step, hh] using goodSlot_on_gpiote _ this
    | .dispatch =>
        by_cases hp : s.pendingSpawn <;>
          simp [step, hh, hp, send_twi_cmds_transfer, h]

/-- Slot well-formedness holds along every run. -/
theorem goodSlot_run (evs : List Ev) : ∀ s : Sys, goodSlot s.transfer = true →
    goodSlot (run s evs).transfer = true := by
  induction evs with
  | nil => intro s h; simpa [run] using h
  | cons e evs ih =>
      intro s h
      simpa [run, List.foldl] using ih (step s e) (goodSlot_step s e h)

/-- C1: for any interleaving of the three bus events, DMA progress, the reset
event and task dispatch, the shared buffer is reachable from exactly one
owner through the state slot: the slot is never observed empty, and being an
`Option` it can never hold two values, so no duplicated ownership arises. -/
theorem C1_exclusive_ownership (evs : List Ev) :
    ownerCount (run initSys evs) = 1 := by
  have h := goodSlot_run evs initSys (by decide)
  match hs : (run initSys evs).transfer with
  | none => rw [hs] at h; simp [goodSlot] at h
  | some st => simp [ownerCount, hs]

/-- C2: from any well-formed state, each of the two handlers that takes the
state out of the shared slot (`on_twis` and `on_gpiote`) leaves the slot
holding exactly one `TwisTransfer` value again on every path it completes,
so outside a handler's own remove/install section the slot is never empty. -/
theorem C2_remove_then_install (s : Sys) (h : goodSlot s.transfer = true) :
    (on_twis s).transfer.isSome = true ∧ (on_gpiote s).transfer.isSome = true := by
  constructor
  · have := goodSlot_on_twis s h
    match hs : (on_twis s).transfer with
    | none => rw [hs] at this; simp [goodSlot] at this
    | some st => simp
  · have := goodSlot_on_gpiote s h
    match hs : (on_gpiote s).transfer with
    | none => rw [hs] at this; simp [goodSlot] at this
    | some st => simp

/-- C2 witness at the initial state. -/
theorem C2_remove_then_install_witness :
    goodSlot initSys.transfer = true ∧
      ((on_twis initSys).transfer.isSome = true ∧
       (on_gpiote initSys).transfer.isSome = true) :=
  ⟨by decide, C2_remove_then_install initSys (by decide)⟩

/-- C3: whatever variant the slot held (`Idle` or `Running`), after the reset
handler the slot holds the `Idle` variant and every byte of the 8-byte buffer
is zero. -/
theorem C3_reset_clears (s : Sys) (st : TwisTransfer) (h : s.transfer = some st) :
    (on_gpiote s).transfer = some (.Idle (List.replicate 8 0, (st.resolve).2)) ∧
      ∀ b ∈ (List.replicate 8 (0 : Byte)), b = 0 := by
  refine ⟨?_, by simp⟩
  by_cases hp : s.pendingSpawn <;> simp [on_gpiote, h, panicHalt, hp]

/-- A running receive transfer over a buffer of sevens, for the C3 witness. -/
def c3Input : TwisTransfer :=
  .Running { dir := .rxDir, buf := List.replicate 8 7, twis := { initTwis with busy := true } }

/-- A system whose slot holds `c3Input`, for the C3 witness. -/
def c3Sys : Sys := { initSys with transfer := some c3Input }

/-- C3 witness: resetting from a `Running` state. -/
theorem C3_reset_clears_witness :
    c3Sys.transfer = some c3Input ∧
    ((on_gpiote c3Sys).transfer = some (.Idle (List.replicate 8 0, (c3Input.resolve).2)) ∧
      ∀ b ∈ (List.replicate 8 (0 : Byte)), b = 0) :=
  ⟨rfl, C3_reset_clears _ _ rfl⟩

/-- C4: each `on_twis` invocation takes exactly one of three branches in the
fixed priority Read, then Write, then the Stopped fallback: a set Read flag
is cleared and a transmit DMA sourcing the buffer is installed `Running`; a
set Write flag (with Read clear) is cleared and a receive DMA into the
buffer is installed `Running`; otherwise the Stopped flag is cleared and
`Idle(buffer, device)` is installed. -/
theorem C4_branch_priority (s : Sys) (st : TwisTransfer) (h : s.transfer = some st) :
    ((st.resolve).2.readEvt = true → (st.resolve).2.busy = false →
       (on_twis s).transfer = some (.Running
         { dir := .txDir, buf := (st.resolve).1,
           twis := { (st.resolve).2 with readEvt := false, busy := true } })) ∧
    ((st.resolve).2.readEvt = false → (st.resolve).2.writeEvt = true →
        (st.resolve).2.busy = false →
       (on_twis s).transfer = some (.Running
         { dir := .rxDir, buf := (st.resolve).1,
           twis := { (st.resolve).2 with writeEvt := false, busy := true } })) ∧
    ((st.resolve).2.readEvt = false → (st.resolve).2.writeEvt = false →
       (on_twis s).transfer = some (.Idle ((st.resolve).1,
         { (st.resolve).2 with stoppedEvt := false }))) := by
  refine ⟨fun hr hb => ?_, fun hr hw hb => ?_, fun hr hw => ?_⟩ <;>
    simp [on_twis, h, Twis.tx, Twis.rx, *]

/-- An idle pair with both Read and Write latched, for the C4 witness. -/
def c4Input : TwisTransfer :=
  .Idle (initBuf, { initTwis with readEvt := true, writeEvt := true })

/-- A system whose slot holds `c4Input`, for the C4 witness. -/
def c4Sys : Sys := { initSys with transfer := some c4Input }

/-- C4 witness: an idle device with both Read and Write latched takes the
Read branch (priority), starting a transmit transfer. -/
theorem C4_branch_priority_witness :
    c4Sys.transfer = some c4Input ∧
    (((c4Input.resolve).2.readEvt = true → (c4Input.resolve).2.busy = false →
        (on_twis c4Sys).transfer = some (.Running
          { dir := .txDir, buf := (c4Input.resolve).1,
            twis := { (c4Input.resolve).2 with readEvt := false, busy := true } })) ∧
     ((c4Input.resolve).2.readEvt = false → (c4Input.resolve).2.writeEvt = true →
         (c4Input.resolve).2.busy = false →
        (on_twis c4Sys).transfer = some (.Running
          { dir := .rxDir, buf := (c4Input.resolve).1,
            twis := { (c4Input.resolve).2 with writeEvt := false, busy := true } })) ∧
     ((c4Input.resolve).2.readEvt = false → (c4Input.resolve).2.writeEvt = false →
        (on_twis c4Sys).transfer = some (.Idle ((c4Input.resolve).1,
          { (c4Input.resolve).2 with stoppedEvt := false })))) :=
  ⟨rfl, C4_branch_priority _ _ rfl⟩

/-- C5: round trip from the initial state — an incoming write DMA-ing in
`[9,9,9,9,9,9,9,9]` then a stop leaves the slot `Idle` with that buffer; a
subsequent incoming read starts a transmit transfer sourcing the same buffer,
and the following stop returns to `Idle` with the buffer unchanged. -/
theorem C5_round_trip :
    ((run initSys [Ev.busWrite, Ev.hwDma (List.replicate 8 9), Ev.busStop]).transfer
       = some (.Idle (List.replicate 8 9, initTwis))) ∧
    ((run initSys [Ev.busWrite, Ev.hwDma (List.replicate 8 9), Ev.busStop,
        Ev.busRead]).transfer
       = some (.Running { dir := .txDir, buf := List.replicate 8 9,
                          twis := { initTwis with busy := true } })) ∧
    ((run initSys [Ev.busWrite, Ev.hwDma (List.replicate 8 9), Ev.busStop,
        Ev.busRead, Ev.busStop]).transfer
       = some (.Idle (List.replicate 8 9, initTwis))) := by
  decide

/-- The conditions `on_twis` has no recovery for: the slot read while empty,
or a DMA start (`tx`/`rx`) that would be rejected because the resolved
interface is still busy when a Read or Write flag routes into a start. -/
def twisFatal (s : Sys) : Bool :=
  match s.transfer with
  | none => true
  | some st =>
      (st.resolve).2.busy && ((st.resolve).2.readEvt || (st.resolve).2.writeEvt)

/-- A halted system absorbs every event: the fault sink loops forever with
interrupts disabled, so no handler runs again. -/
theorem step_absorbs (s : Sys) (e : Ev) (h : s.halted = true) : step s e = s := by
  simp [step, h]

/-- C6: `on_twis` reaches the fault sink exactly on an empty slot or a
busy-rejected DMA start — the fatal path is the only handling of those
conditions — and on that path interrupts are disabled, the diagnostic is
emitted, and no subsequent event returns control to normal execution. -/
theorem C6_fatal_on_breach (s : Sys) (h : s.halted = false) :
    ((on_twis s).halted = twisFatal s) ∧
    (twisFatal s = true →
       (on_twis s).intEnabled = false ∧ Act.fatal ∈ (on_twis s).log ∧
       ∀ e, step (on_twis s) e = on_twis s) := by
  have hmain : (on_twis s).halted = twisFatal s ∧
      (twisFatal s = true →
        (on_twis s).intEnabled = false ∧ Act.fatal ∈ (on_twis s).log) := by
    match hs : s.transfer with
    | none => simp [on_twis, hs, twisFatal, panicHalt]
    | some st =>
        by_cases hr : (st.resolve).2.readEvt <;>
        by_cases hw : (st.resolve).2.writeEvt <;>
        by_cases hb : (st.resolve).2.busy <;>
          simp [on_twis, hs, twisFatal, panicHalt, Twis.tx, Twis.rx, hr, hw, hb, h]
  refine ⟨hmain.1, fun hf => ⟨(hmain.2 hf).1, (hmain.2 hf).2, fun e => step_absorbs _ e ?_⟩⟩
  rw [hmain.1]; exact hf

/-- A system whose slot has been forced empty, for the C6 witness. -/
def c6Sys : Sys := { initSys with transfer := none }

/-- C6 witness: reading the slot while empty halts the system for good. -/
theorem C6_fatal_on_breach_witness :
    c6Sys.halted = false ∧
    (((on_twis c6Sys).halted = twisFatal c6Sys) ∧
     (twisFatal c6Sys = true →
        (on_twis c6Sys).intEnabled = false ∧ Act.fatal ∈ (on_twis c6Sys).log ∧
        ∀ e, step (on_twis c6Sys) e = on_twis c6Sys)) :=
  ⟨rfl, C6_fatal_on_breach c6Sys rfl⟩

/-- C7: `send_twi_cmds` issues, in order, a blocking 8-byte read from address
`0x1A` and then a blocking write of `[1,2,3,4,5,6,7,8]` to `0x1A`; this holds
for every oracle outcome — in particular a failed read still issues the write
— and the responder-side slot is left untouched. -/
theorem C7_controller_task (s : Sys) :
    (send_twi_cmds s).twimOps
      = s.twimOps ++ [TwimOp.read TWIS_ADDR 8,
                      TwimOp.write TWIS_ADDR [1, 2, 3, 4, 5, 6, 7, 8]] ∧
    (send_twi_cmds s).transfer = s.transfer ∧
    (s.twim.readOk = false →
       TwimOp.write TWIS_ADDR [1, 2, 3, 4, 5, 6, 7, 8] ∈ (send_twi_cmds s).twimOps) := by
  refine ⟨?_, rfl, fun _ => ?_⟩ <;>
    simp [send_twi_cmds, twimRxScratch, twimTxPayload]

/-- A system whose controller read is doomed to fail, for the C7 witness. -/
def c7Sys : Sys :=
  { initSys with twim := { readOk := false, readData := [], writeOk := true } }

/-- C7 witness: even with a failing read, both operations are issued in order
and the slot is untouched. -/
theorem C7_controller_task_witness :
    (send_twi_cmds c7Sys).twimOps
      = c7Sys.twimOps ++ [TwimOp.read TWIS_ADDR 8,
                          TwimOp.write TWIS_ADDR [1, 2, 3, 4, 5, 6, 7, 8]] ∧
    (send_twi_cmds c7Sys).transfer = c7Sys.transfer ∧
    (c7Sys.twim.readOk = false →
       TwimOp.write TWIS_ADDR [1, 2, 3, 4, 5, 6, 7, 8] ∈ (send_twi_cmds c7Sys).twimOps) :=
  C7_controller_task c7Sys

/-- C8: in the reset handler, clearing the edge latch is the first logged
action and the spawn of `send_twi_cmds` is the last, strictly after the
`Idle` reinstall; the spawn only marks the task pending — no controller-mode
operation happens inside the handler. -/
theorem C8_reset_ordering (s : Sys) (st : TwisTransfer)
    (h : s.transfer = some st) (hp : s.pendingSpawn = false) :
    (on_gpiote s).log
      = s.log ++ [Act.clearLatch, Act.traceReset, Act.takeSlot, Act.zeroBuf,
                  Act.traceBuf (List.replicate 8 0), Act.installSlot, Act.spawnTask] ∧
    (on_gpiote s).pendingSpawn = true ∧
    (on_gpiote s).twimOps = s.twimOps ∧
    (on_gpiote s).gpioteLatch = false := by
  simp [on_gpiote, h, hp]

/-- C8 witness at the initial state. -/
theorem C8_reset_ordering_witness :
    initSys.transfer = some (.Idle (initBuf, initTwis)) ∧ initSys.pendingSpawn = false ∧
    ((on_gpiote initSys).log
       = initSys.log ++ [Act.clearLatch, Act.traceReset, Act.takeSlot, Act.zeroBuf,
                         Act.traceBuf (List.replicate 8 0), Act.installSlot, Act.spawnTask] ∧
     (on_gpiote initSys).pendingSpawn = true ∧
     (on_gpiote initSys).twimOps = initSys.twimOps ∧
     (on_gpiote initSys).gpioteLatch = false) :=
  ⟨rfl, rfl, C8_reset_ordering initSys _ rfl rfl⟩

/-- C9: the responder interface is configured at bus address `0x1A`, and the
shared buffer, the controller's read scratch, and the fixed write payload are
all exactly 8 bytes; the controller task's operations use those constants. -/
theorem C9_constants :
    initTwis.addr = 0x1A ∧ initBuf.length = 8 ∧
    twimRxScratch.length = 8 ∧ twimTxPayload.length = 8 ∧
    (send_twi_cmds initSys).twimOps
      = [TwimOp.read 0x1A 8, TwimOp.write 0x1A [1, 2, 3, 4, 5, 6, 7, 8]] := by
  decide

/-- C10: a reset edge arriving while a previous `send_twi_cmds` instance is
still queued makes the spawn fail, and the handler's `unwrap` takes the fatal
path — the trigger is asserted fatal, never silently dropped. -/
theorem C10_double_spawn_fatal (s : Sys) (st : TwisTransfer)
    (h : s.transfer = some st) (hp : s.pendingSpawn = true) :
    (on_gpiote s).halted = true ∧ (on_gpiote s).intEnabled = false ∧
    (on_gpiote s).log
      = s.log ++ [Act.clearLatch, Act.traceReset, Act.takeSlot, Act.zeroBuf,
                  Act.traceBuf (List.replicate 8 0), Act.installSlot, Act.fatal] := by
  simp [on_gpiote, h, hp, panicHalt]

/-- A system with the controller task still queued, for the C10 witness. -/
def c10Sys : Sys := { initSys with pendingSpawn := true }

/-- C10 witness: a double enqueue halts the system. -/
theorem C10_double_spawn_fatal_witness :
    c10Sys.transfer = some (.Idle (initBuf, initTwis)) ∧ c10Sys.pendingSpawn = true ∧
    ((on_gpiote c10Sys).halted = true ∧ (on_gpiote c10Sys).intEnabled = false ∧
     (on_gpiote c10Sys).log
       = c10Sys.log ++ [Act.clearLatch, Act.traceReset, Act.takeSlot, Act.zeroBuf,
                        Act.traceBuf (List.replicate 8 0), Act.installSlot, Act.fatal]) :=
  ⟨rfl, rfl, C10_double_spawn_fatal c10Sys _ rfl rfl⟩
